import Mathlib

/-!
# Verification of the Snake game core (src/src/snake.hpp, src/src/snake.cpp)

A shallow embedding of the game-state engine: the `Snake` and `Board`
classes, their operations, and a step relation capturing every sequence of
`update_snake_dir` (set_direction), `update` and `reset` calls a host can
make on a freshly constructed `Board`.

Coordinates are C++ `unsigned int` (32-bit, wraparound): they are modelled
as `Nat` with every increment/decrement taken modulo `2^32`.

The random food placement in `Board::spawn_new_food` is a rejection-sampling
loop whose postcondition is `!will_collide(food_loc)` evaluated against the
board's snake at the moment of the call; it is modelled nondeterministically:
operations that respawn food take the chosen coordinate as an argument, and
the step relation restricts that argument to coordinates the loop can
actually produce (`spawn_ok`).
-/

namespace game

/-- Modulus of C++ `unsigned int` arithmetic (32-bit). -/
def u32_size : Nat := 4294967296

/-- `n + 1` in `unsigned int` arithmetic (`x++` in the source). -/
def u32_inc (n : Nat) : Nat := (n + 1) % u32_size

/-- `n - 1` in `unsigned int` arithmetic (`x--` in the source): wraps to
`2^32 - 1` at zero. -/
def u32_dec (n : Nat) : Nat := (n + (u32_size - 1)) % u32_size

/-- `game::grid_coords_t` from snake.hpp: a pair of `unsigned int`
coordinates; `operator==` is component-wise equality. -/
structure grid_coords_t where
  x : Nat
  y : Nat
deriving DecidableEq, Repr

/-- `game::Direction` from snake.hpp: `enum Direction { north = 0, east,
south, west }`, numbered clockwise. -/
inductive Direction where
  | north
  | east
  | south
  | west
deriving DecidableEq, Repr

open Direction

/-- The integer value of a `Direction` enumerator (the enum is
`north = 0, east = 1, south = 2, west = 3`). -/
def dir_to_int : Direction → Int
  | north => 0
  | east => 1
  | south => 2
  | west => 3

/-- `game::Snake` from snake.hpp: head coordinate, body segments (head is
the LAST element of `body`), and current direction. The C++ member
`direction` is never initialized by the constructor, so a freshly
constructed snake carries an arbitrary direction. -/
structure Snake where
  head : grid_coords_t
  body : List grid_coords_t
  direction : Direction
deriving DecidableEq, Repr

/-- The `Snake(head_coords)` constructor: `head = head_coords;
body.push_back(head)`. The uninitialized `direction` member is the
arbitrary parameter `d`. -/
def Snake.construct (head_coords : grid_coords_t) (d : Direction) : Snake :=
  { head := head_coords, body := [head_coords], direction := d }

/-- `Snake::get_next_head_location` from snake.hpp: the head offset one
cell in the current direction, in `unsigned int` arithmetic (north `y--`,
east `x++`, south `y++`, west `x--`). -/
def Snake.get_next_head_location (s : Snake) : grid_coords_t :=
  match s.direction with
  | north => { x := s.head.x, y := u32_dec s.head.y }
  | east => { x := u32_inc s.head.x, y := s.head.y }
  | south => { x := s.head.x, y := u32_inc s.head.y }
  | west => { x := u32_dec s.head.x, y := s.head.y }

/-- `Snake::set_direction` from snake.hpp: unconditionally overwrite the
direction. -/
def Snake.set_direction (s : Snake) (dir : Direction) : Snake :=
  { s with direction := dir }

/-- `Snake::get_size`. Modelled from the spec: the definition is not in
src (the snake.hpp snapshot there predates it; snake.cpp and renderer.cpp
call it); the spec describes it as the body length (score is
`length - 1`). -/
def Snake.get_size (s : Snake) : Nat := s.body.length

/-- The in-place shifting loop of `Snake::move`:
`for (i = 1; i < body.size(); ++i) body[i-1] = body[i]`.
Each cell receives its right neighbour's (still unmodified) value, so
`[x0, x1, ..., xn]` becomes `[x1, ..., xn, xn]`. -/
def shift_left : List grid_coords_t → List grid_coords_t
  | [] => []
  | [a] => [a]
  | _ :: b :: t => b :: shift_left (b :: t)

/-- `body.back() = h`: replace the last element (identity on the empty
list, on which the C++ call would be undefined; the body is never empty). -/
def set_last : List grid_coords_t → grid_coords_t → List grid_coords_t
  | [], _ => []
  | [_], v => [v]
  | a :: b :: t, v => a :: set_last (b :: t) v

/-- `Snake::move(has_eaten_food)` from snake.cpp lines 22-35:
`head = get_next_head_location()`; shift the body left one slot; then
`push_back(head)` if food was eaten, else `body.back() = head`. -/
def Snake.move (s : Snake) (has_eaten_food : Bool) : Snake :=
  let new_head := s.get_next_head_location
  let shifted := shift_left s.body
  { s with
    head := new_head
    body := if has_eaten_food then shifted ++ [new_head] else set_last shifted new_head }

/-- `Snake::has_snake` from snake.cpp lines 42-52: linear search of the
body for the given coordinate. -/
def Snake.has_snake (s : Snake) (here : grid_coords_t) : Bool :=
  s.body.any (fun seg => decide (here = seg))

/-- `game::Board` from snake.hpp: grid edge length, (unused) grid vector,
food location, the initial snake coordinate kept for `reset`, and the owned
snake. -/
structure Board where
  grid_size : Nat
  grid : List grid_coords_t
  food_loc : grid_coords_t
  init_snake_coords : grid_coords_t
  snake : Snake
deriving DecidableEq, Repr

/-- `Board::will_collide` from snake.cpp lines 63-71:
`next_loc.x >= grid_size || next_loc.y >= grid_size || snake->has_snake(next_loc)`
(coordinates are unsigned, so only the upper bound is checked). -/
def Board.will_collide (b : Board) (next_loc : grid_coords_t) : Bool :=
  (decide (b.grid_size ≤ next_loc.x) || decide (b.grid_size ≤ next_loc.y))
    || b.snake.has_snake next_loc

/-- Postcondition of the `Board::spawn_new_food` rejection-sampling loop
(snake.cpp lines 78-89): the coordinate it leaves in `food_loc` is one for
which `will_collide` is false, judged against the board's snake at the
moment of the call. -/
def spawn_ok (b : Board) (c : grid_coords_t) : Prop :=
  b.will_collide c = false

/-- The `Board(grid_size, init_snake_coords)` constructor: store the sizes,
build a one-segment snake at `init_snake_coords` (with arbitrary direction
`d`, since `Snake::direction` is uninitialized), and run `spawn_new_food`,
whose nondeterministic outcome is the parameter `f0`. -/
def Board.construct (gs : Nat) (p0 : grid_coords_t) (d : Direction) (f0 : grid_coords_t) :
    Board :=
  { grid_size := gs, grid := [], food_loc := f0, init_snake_coords := p0,
    snake := Snake.construct p0 d }

/-- The constructor's `spawn_new_food` call can leave `f0` in `food_loc`:
`will_collide f0` is false against the freshly built snake. -/
def construct_ok (gs : Nat) (p0 : grid_coords_t) (d : Direction) (f0 : grid_coords_t) :
    Prop :=
  spawn_ok (Board.construct gs p0 d f0) f0

/-- `Board::update_snake_dir` from snake.cpp lines 97-106: when the snake
has more than one segment, a requested direction whose enum distance from
the current one satisfies `abs(new - curr) % 3 > 1` (a 180-degree turn) is
ignored; otherwise the direction is set. (The snake.hpp snapshot in src
carries an older inline body that sets the direction unconditionally; the
out-of-line definition in snake.cpp is the one the spec and the claim
describe, and it is modelled here.) -/
def Board.update_snake_dir (b : Board) (new_direction : Direction) : Board :=
  if b.snake.get_size > 1 then
    if (dir_to_int new_direction - dir_to_int b.snake.direction).natAbs % 3 > 1 then
      b
    else
      { b with snake := b.snake.set_direction new_direction }
  else
    { b with snake := b.snake.set_direction new_direction }

/-- `Board::update` from snake.cpp lines 114-129: compute the next head
location; if it collides, return `false` without touching any state;
otherwise, if it equals the food, respawn the food (nondeterministic
outcome `nf`, drawn BEFORE the snake moves) and move the snake with
`has_eaten_food = true`, else move it with `false`; return `true`. -/
def Board.update (b : Board) (nf : grid_coords_t) : Bool × Board :=
  let next_head_location := b.snake.get_next_head_location
  if b.will_collide next_head_location then
    (false, b)
  else if next_head_location = b.food_loc then
    (true, { b with food_loc := nf, snake := b.snake.move true })
  else
    (true, { b with snake := b.snake.move false })

/-- The `update` call on `b` reaches the food-eating branch: no collision,
and the next head location equals the current food. When it does, the food
respawn samples against the PRE-move snake. -/
def update_eats (b : Board) : Prop :=
  b.will_collide b.snake.get_next_head_location = false ∧
    b.snake.get_next_head_location = b.food_loc

instance (b : Board) : Decidable (update_eats b) := by
  unfold update_eats
  infer_instance

/-- `Board::reset` from snake.cpp lines 136-141: replace the snake with a
fresh one at `init_snake_coords` (arbitrary direction `d`, uninitialized in
C++), respawn the food (nondeterministic outcome `nf`), and return `true`. -/
def Board.reset (b : Board) (d : Direction) (nf : grid_coords_t) : Bool × Board :=
  ((true : Bool),
    { b with snake := Snake.construct b.init_snake_coords d, food_loc := nf })

/-- One host-visible mutation of a `Board`: a `set_direction` command, an
`update` tick, or a `reset`. Food-respawn outcomes are constrained by
`spawn_ok` against the snake the sampling loop actually sees. -/
inductive Step : Board → Board → Prop where
  | set_dir (b : Board) (d : Direction) : Step b (b.update_snake_dir d)
  | run_update (b : Board) (nf : grid_coords_t)
      (h : update_eats b → spawn_ok b nf) : Step b (b.update nf).2
  | run_reset (b : Board) (d : Direction) (nf : grid_coords_t)
      (h : spawn_ok { b with snake := Snake.construct b.init_snake_coords d } nf) :
      Step b (b.reset d nf).2

/-- States reachable from a board by any sequence of host calls. -/
def Reachable : Board → Board → Prop :=
  Relation.ReflTransGen Step

instance (b : Board) (c : grid_coords_t) : Decidable (spawn_ok b c) := by
  unfold spawn_ok
  infer_instance

instance (gs : Nat) (p0 : grid_coords_t) (d : Direction) (f0 : grid_coords_t) :
    Decidable (construct_ok gs p0 d f0) := by
  unfold construct_ok spawn_ok
  infer_instance

/-- A coordinate lies inside the `gs × gs` grid. -/
def in_bounds (gs : Nat) (c : grid_coords_t) : Prop :=
  c.x < gs ∧ c.y < gs

instance (gs : Nat) (c : grid_coords_t) : Decidable (in_bounds gs c) := by
  unfold in_bounds
  infer_instance

/-- The bounds invariant of the board: the remembered initial snake
coordinate, every body segment, and the food all lie inside the grid. -/
def BoardInv (b : Board) : Prop :=
  in_bounds b.grid_size b.init_snake_coords ∧
    (∀ c ∈ b.snake.body, in_bounds b.grid_size c) ∧
    in_bounds b.grid_size b.food_loc

/-- `a` is the 180-degree opposite of `b` (north vs south, east vs west). -/
def is_reverse (a b : Direction) : Prop :=
  (a = north ∧ b = south) ∨ (a = south ∧ b = north) ∨
    (a = east ∧ b = west) ∨ (a = west ∧ b = east)

instance (a b : Direction) : Decidable (is_reverse a b) := by
  unfold is_reverse
  infer_instance

/-- A length-2 snake heading south, used to exercise `Snake::move` with
`has_eaten_food = true` (head `(2,1)` is the last body element). -/
def cb1_snake : Snake :=
  { head := ⟨2, 1⟩, body := [⟨1, 1⟩, ⟨2, 1⟩], direction := south }

/-- A 3x3 board whose snake sits at `(1,1)` heading east with the food one
cell ahead at `(2,1)`. -/
def cb2_start : Board := Board.construct 3 ⟨1, 1⟩ east ⟨2, 1⟩

/-- `cb2_start` after one `update` tick in which the food respawn draws
`(2,1)` again: the sampling loop runs before the snake moves, so `(2,1)` is
still unoccupied when it is sampled, and the snake's new head then lands on
it. -/
def cb2_next : Board := (cb2_start.update ⟨2, 1⟩).2

/-- A 5x5 board whose snake sits at `(1,1)` heading east with the food one
cell ahead at `(2,1)`. -/
def cb3_0 : Board := Board.construct 5 ⟨1, 1⟩ east ⟨2, 1⟩

/-- `cb3_0` after eating the food at `(2,1)`, the respawn drawing `(2,2)`. -/
def cb3_1 : Board := (cb3_0.update ⟨2, 2⟩).2

/-- `cb3_1` after the host turns the snake south (a 90-degree turn,
accepted). -/
def cb3_2 : Board := cb3_1.update_snake_dir south

/-- `cb3_2` after eating the food at `(2,2)`, the respawn drawing `(4,4)`. -/
def cb3_3 : Board := (cb3_2.update ⟨4, 4⟩).2

/-- A 5x5 board with a length-2 snake `[(1,1), (2,1)]` heading east. -/
def c4_board : Board :=
  { grid_size := 5, grid := [], food_loc := ⟨0, 0⟩, init_snake_coords := ⟨1, 1⟩,
    snake := { head := ⟨2, 1⟩, body := [⟨1, 1⟩, ⟨2, 1⟩], direction := east } }

/-- A 5x5 board whose single-segment snake sits at `(4,2)` heading east,
one step from the east wall. -/
def c5_board : Board :=
  { grid_size := 5, grid := [], food_loc := ⟨0, 0⟩, init_snake_coords := ⟨4, 2⟩,
    snake := { head := ⟨4, 2⟩, body := [⟨4, 2⟩], direction := east } }

/-- A 5x5 board whose single-segment snake sits at the origin heading
north: its next head location wraps around `unsigned int` zero. -/
def c6_board : Board :=
  { grid_size := 5, grid := [], food_loc := ⟨3, 3⟩, init_snake_coords := ⟨0, 0⟩,
    snake := { head := ⟨0, 0⟩, body := [⟨0, 0⟩], direction := north } }

/-- A 3x3 board whose snake sits at `(1,1)` heading east with the food one
cell ahead at `(2,1)`, for exercising the growth branch of `update`. -/
def c7_board : Board := Board.construct 3 ⟨1, 1⟩ east ⟨2, 1⟩

/-- The default 20x20 board with the snake at the default centre cell
`(9,9)` and initial food at the origin. -/
def c8_board : Board := Board.construct 20 ⟨9, 9⟩ north ⟨0, 0⟩

/-- The shifting loop turns `a :: t` into `t` followed by a duplicate of
the last element. -/
theorem shift_left_cons (a : grid_coords_t) (t : List grid_coords_t) :
    shift_left (a :: t) = t ++ [t.getLast?.getD a] := by
  induction t generalizing a with
  | nil => simp [shift_left]
  | cons b t2 ih =>
      simp only [shift_left]
      rw [ih b]
      cases t2 with
      | nil => simp
      | cons c t3 =>
          simp [List.getLast?_cons_cons,
            List.getLast?_eq_getLast_of_ne_nil (List.cons_ne_nil c t3)]

/-- The last element of `a :: t`, as computed by `getLast?.getD`, is a
member of `a :: t`. -/
theorem getLast_getD_mem (a : grid_coords_t) (t : List grid_coords_t) :
    t.getLast?.getD a ∈ a :: t := by
  cases h : t.getLast? with
  | none => simp
  | some x =>
      have hx : x ∈ t := by
        obtain ⟨hne, heq⟩ := List.mem_getLast?_eq_getLast (show x ∈ t.getLast? by simp [h])
        exact heq ▸ List.getLast_mem hne
      simp [List.mem_cons_of_mem a hx]

/-- The shifting loop preserves the body length. -/
theorem length_shift_left (l : List grid_coords_t) :
    (shift_left l).length = l.length := by
  cases l with
  | nil => rfl
  | cons a t => simp [shift_left_cons]

/-- Every element of the shifted body was an element of the body. -/
theorem mem_shift_left {c : grid_coords_t} {l : List grid_coords_t}
    (h : c ∈ shift_left l) : c ∈ l := by
  cases l with
  | nil => simp [shift_left] at h
  | cons a t =>
      rw [shift_left_cons] at h
      rcases List.mem_append.mp h with h | h
      · exact List.mem_cons_of_mem a h
      · rcases List.mem_singleton.mp h with rfl
        exact getLast_getD_mem a t

/-- Writing through `back()` replaces the final element. -/
theorem set_last_concat (t : List grid_coords_t) (a v : grid_coords_t) :
    set_last (t ++ [a]) v = t ++ [v] := by
  induction t with
  | nil => simp [set_last]
  | cons x xs ih =>
      cases xs with
      | nil => simp [set_last]
      | cons y ys => simpa [set_last] using ih

/-- Every element after a `back()` write was an element before, or is the
written value. -/
theorem mem_set_last {c v : grid_coords_t} {l : List grid_coords_t}
    (h : c ∈ set_last l v) : c ∈ l ∨ c = v := by
  induction l with
  | nil => simp [set_last] at h
  | cons x xs ih =>
      cases xs with
      | nil =>
          rcases List.mem_singleton.mp (by simpa [set_last] using h) with rfl
          exact Or.inr rfl
      | cons y ys =>
          rcases List.mem_cons.mp (by simpa [set_last] using h) with rfl | h2
          · exact Or.inl (List.mem_cons_self _ _)
          · rcases ih (by simpa [set_last] using h2) with h3 | h3
            · exact Or.inl (List.mem_cons_of_mem x h3)
            · exact Or.inr h3

/-- A non-growing move slides the body: drop the oldest segment, append
the new head. -/
theorem move_slide (s : Snake) (hne : s.body ≠ []) :
    (s.move false).body = s.body.tail ++ [s.get_next_head_location] := by
  obtain ⟨a, t, hb⟩ := List.exists_cons_of_ne_nil hne
  show set_last (shift_left s.body) s.get_next_head_location = _
  rw [hb, shift_left_cons, set_last_concat]
  simp

/-- A growing move lengthens the body by exactly one. -/
theorem move_grow_length (s : Snake) :
    (s.move true).body.length = s.body.length + 1 := by
  simp [Snake.move, length_shift_left]

/-- After any move, every body segment is an old segment or the new head. -/
theorem mem_move {c : grid_coords_t} {s : Snake} {g : Bool}
    (h : c ∈ (s.move g).body) : c ∈ s.body ∨ c = s.get_next_head_location := by
  cases g with
  | true =>
      have h2 : c ∈ shift_left s.body ∨ c = s.get_next_head_location := by
        simpa [Snake.move] using h
      rcases h2 with h2 | h2
      · exact Or.inl (mem_shift_left h2)
      · exact Or.inr h2
  | false =>
      have h2 : c ∈ set_last (shift_left s.body) s.get_next_head_location := by
        simpa [Snake.move] using h
      rcases mem_set_last h2 with h3 | h3
      · exact Or.inl (mem_shift_left h3)
      · exact Or.inr h3

/-- `has_snake` answers body membership. -/
theorem has_snake_iff (s : Snake) (c : grid_coords_t) :
    s.has_snake c = true ↔ c ∈ s.body := by
  simp [Snake.has_snake, List.any_eq_true]

/-- `will_collide` is a wall check or a body-membership check. -/
theorem will_collide_iff (b : Board) (c : grid_coords_t) :
    b.will_collide c = true ↔
      b.grid_size ≤ c.x ∨ b.grid_size ≤ c.y ∨ c ∈ b.snake.body := by
  simp [Board.will_collide, has_snake_iff, or_assoc]

/-- A coordinate that does not collide is strictly inside the grid and off
the snake. -/
theorem will_collide_eq_false (b : Board) (c : grid_coords_t) :
    b.will_collide c = false ↔
      c.x < b.grid_size ∧ c.y < b.grid_size ∧ c ∉ b.snake.body := by
  rw [← Bool.not_eq_true, will_collide_iff]
  push_neg
  simp [Nat.not_le]

/-- `update_snake_dir` only ever touches the snake's direction. -/
theorem update_snake_dir_fields (b : Board) (d : Direction) :
    (b.update_snake_dir d).grid_size = b.grid_size ∧
      (b.update_snake_dir d).snake.body = b.snake.body ∧
      (b.update_snake_dir d).food_loc = b.food_loc ∧
      (b.update_snake_dir d).init_snake_coords = b.init_snake_coords := by
  unfold Board.update_snake_dir Snake.set_direction
  split
  · split <;> simp
  · simp

/-- On a colliding next head location, `update` is the identity on the
board and reports `false`. -/
theorem update_of_collide (b : Board) (nf : grid_coords_t)
    (hc : b.will_collide b.snake.get_next_head_location = true) :
    b.update nf = (false, b) := by
  simp [Board.update, hc]

/-- On a collision-free tick that eats the food, `update` respawns the
food at the sampled cell and moves the snake with growth. -/
theorem update_of_eat (b : Board) (nf : grid_coords_t)
    (hc : b.will_collide b.snake.get_next_head_location = false)
    (he : b.snake.get_next_head_location = b.food_loc) :
    b.update nf = (true, { b with food_loc := nf, snake := b.snake.move true }) := by
  have hc2 : b.will_collide b.food_loc = false := he ▸ hc
  simp [Board.update, he, hc2]

/-- On a collision-free tick that misses the food, `update` just moves the
snake. -/
theorem update_of_no_eat (b : Board) (nf : grid_coords_t)
    (hc : b.will_collide b.snake.get_next_head_location = false)
    (he : b.snake.get_next_head_location ≠ b.food_loc) :
    b.update nf = (true, { b with snake := b.snake.move false }) := by
  simp [Board.update, hc, he]

/-- Every host-visible step preserves the bounds invariant. -/
theorem step_preserves_inv {b b' : Board} (hb : BoardInv b) (hs : Step b b') :
    BoardInv b' := by
  cases hs with
  | set_dir d =>
      obtain ⟨h1, h2, h3, h4⟩ := update_snake_dir_fields b d
      unfold BoardInv at hb ⊢
      rw [h1, h2, h3, h4]
      exact hb
  | run_update nf h =>
      by_cases hc : b.will_collide b.snake.get_next_head_location = true
      · rw [update_of_collide b nf hc]
        exact hb
      · have hc' : b.will_collide b.snake.get_next_head_location = false :=
          Bool.not_eq_true _ ▸ hc
        obtain ⟨hx, hy, _⟩ := (will_collide_eq_false b _).mp hc'
        by_cases he : b.snake.get_next_head_location = b.food_loc
        · rw [update_of_eat b nf hc' he]
          obtain ⟨hfx, hfy, _⟩ :=
            (will_collide_eq_false b nf).mp (h ⟨hc', he⟩)
          refine ⟨hb.1, ?_, hfx, hfy⟩
          intro c hcm
          rcases mem_move hcm with h2 | h2
          · exact hb.2.1 c h2
          · exact h2 ▸ ⟨hx, hy⟩
        · rw [update_of_no_eat b nf hc' he]
          refine ⟨hb.1, ?_, hb.2.2⟩
          intro c hcm
          rcases mem_move hcm with h2 | h2
          · exact hb.2.1 c h2
          · exact h2 ▸ ⟨hx, hy⟩
  | run_reset d nf h =>
      obtain ⟨hfx, hfy, _⟩ :=
        (will_collide_eq_false { b with snake := Snake.construct b.init_snake_coords d } nf).mp h
      refine ⟨hb.1, ?_, hfx, hfy⟩
      intro c hcm
      have : c = b.init_snake_coords := by
        simpa [Board.reset, Snake.construct] using hcm
      exact this ▸ hb.1

/-- A freshly constructed board satisfies the bounds invariant whenever the
start position is inside the grid (the constructor's food spawn guarantees
the rest). -/
theorem construct_inv (gs : Nat) (p0 : grid_coords_t) (d : Direction)
    (f0 : grid_coords_t) (hp : in_bounds gs p0) (hok : construct_ok gs p0 d f0) :
    BoardInv (Board.construct gs p0 d f0) := by
  obtain ⟨hfx, hfy, _⟩ := (will_collide_eq_false (Board.construct gs p0 d f0) f0).mp hok
  refine ⟨hp, ?_, hfx, hfy⟩
  intro c hcm
  have : c = p0 := by
    simpa [Board.construct, Snake.construct] using hcm
  exact this ▸ hp

/-- A requested direction is the 180-degree reverse of the current one
exactly when the code's enum-distance test `abs(new - curr) % 3 > 1`
fires. -/
theorem reverse_iff_abs (a c : Direction) :
    is_reverse a c ↔ (dir_to_int a - dir_to_int c).natAbs % 3 > 1 := by
  cases a <;> cases c <;> decide

/-- Claim C1: `Snake::move(true)` does set the head to
`get_next_head_location()` and does lengthen the body by one, but it does
NOT append the new head to the unchanged old body: the unconditional
shifting loop runs first, so the oldest segment's value is dropped and the
old last segment is duplicated. On the length-2 snake `[(1,1),(2,1)]`
heading south the result is `[(2,1),(2,1),(2,2)]`, not
`[(1,1),(2,1),(2,2)]`. -/
theorem move_grow_drops_oldest_segment :
    (cb1_snake.move true).head = cb1_snake.get_next_head_location ∧
      (cb1_snake.move true).body.length = cb1_snake.body.length + 1 ∧
      (cb1_snake.move true).body = [⟨2, 1⟩, ⟨2, 1⟩, ⟨2, 2⟩] ∧
      (cb1_snake.move true).body ≠
        cb1_snake.body ++ [cb1_snake.get_next_head_location] := by
  decide

/-- Claim C2: the no-food-on-snake invariant fails on a reachable state.
`Board::update` calls `spawn_new_food()` BEFORE `snake->move(...)`, so the
rejection sampling runs against the pre-move body and may return the very
cell the head is about to occupy. From a 3x3 board with the snake at
`(1,1)` heading east and food at `(2,1)`, one `update` whose respawn draws
`(2,1)` leaves the food on the snake's new head. -/
theorem food_on_snake_reachable :
    in_bounds 3 ⟨1, 1⟩ ∧ construct_ok 3 ⟨1, 1⟩ east ⟨2, 1⟩ ∧
      Reachable cb2_start cb2_next ∧ cb2_next.food_loc ∈ cb2_next.snake.body := by
  refine ⟨by decide, by decide, ?_, by decide⟩
  exact Relation.ReflTransGen.single (Step.run_update cb2_start ⟨2, 1⟩ (fun _ => by decide))

/-- Claim C3: the no-duplicate-body invariant fails on a reachable state.
Growing while already at length 2 duplicates a segment (the shifting loop
runs before `push_back`): after eating at `(2,1)` and then at `(2,2)` the
body is `[(2,1),(2,1),(2,2)]`. -/
theorem duplicate_body_reachable :
    in_bounds 5 ⟨1, 1⟩ ∧ construct_ok 5 ⟨1, 1⟩ east ⟨2, 1⟩ ∧
      Reachable cb3_0 cb3_3 ∧ ¬ cb3_3.snake.body.Nodup := by
  refine ⟨by decide, by decide, ?_, by decide⟩
  have s1 : Step cb3_0 cb3_1 := Step.run_update cb3_0 ⟨2, 2⟩ (fun _ => by decide)
  have s2 : Step cb3_1 cb3_2 := Step.set_dir cb3_1 south
  have s3 : Step cb3_2 cb3_3 := Step.run_update cb3_2 ⟨4, 4⟩ (fun _ => by decide)
  exact ((Relation.ReflTransGen.single s1).tail s2).tail s3

/-- Claim C4: `Board::update_snake_dir` sets any requested heading when the
snake has length 1; at length greater than 1 it is a no-op exactly on the
180-degree reversal of the current heading and sets every other requested
heading. -/
theorem update_snake_dir_spec (b : Board) (d : Direction) :
    (b.snake.body.length = 1 → (b.update_snake_dir d).snake.direction = d) ∧
      (b.snake.body.length > 1 →
        (is_reverse d b.snake.direction →
          (b.update_snake_dir d).snake.direction = b.snake.direction) ∧
        (¬is_reverse d b.snake.direction →
          (b.update_snake_dir d).snake.direction = d)) := by
  constructor
  · intro h1
    simp [Board.update_snake_dir, Snake.get_size, h1, Snake.set_direction]
  · intro hgt
    constructor
    · intro hrev
      have hcond := (reverse_iff_abs d b.snake.direction).mp hrev
      simp [Board.update_snake_dir, Snake.get_size, hgt, hcond]
    · intro hrev
      have hcond : ¬((dir_to_int d - dir_to_int b.snake.direction).natAbs % 3 > 1) :=
        fun hc => hrev ((reverse_iff_abs d b.snake.direction).mpr hc)
      simp [Board.update_snake_dir, Snake.get_size, hgt, hcond, Snake.set_direction]

/-- Witness for C4: on a length-2 snake heading east, requesting west is
ignored while requesting north is applied. -/
theorem update_snake_dir_spec_witness :
    (c4_board.update_snake_dir west).snake.direction = east ∧
      (c4_board.update_snake_dir north).snake.direction = north := by
  constructor
  · exact ((update_snake_dir_spec c4_board west).2 (by decide)).1 (by decide)
  · exact ((update_snake_dir_spec c4_board north).2 (by decide)).2 (by decide)

/-- Claim C5: when the next head location collides, `update` returns
`false` and the board — snake body, head and heading, food, grid size —
is exactly the pre-call board. -/
theorem update_collision_noop (b : Board) (nf : grid_coords_t)
    (h : b.will_collide b.snake.get_next_head_location = true) :
    b.update nf = (false, b) :=
  update_of_collide b nf h

/-- Witness for C5: on a 5x5 grid a snake at `(4,2)` heading east makes
`update` report game over and change nothing. -/
theorem update_collision_noop_witness :
    c5_board.update ⟨1, 1⟩ = ((false : Bool), c5_board) :=
  update_collision_noop c5_board ⟨1, 1⟩ (by decide)

/-- Claim C6: `will_collide(c)` holds iff `c.x ≥ grid_size`, `c.y ≥
grid_size`, or `c` is a body segment; and because coordinates wrap modulo
`2^32`, a head at `x = 0` heading west (or `y = 0` heading north) gets a
next location whose decremented component is `2^32 - 1`, which the
upper-bound check classifies as a wall hit, so `update` returns `false`. -/
theorem will_collide_spec (b : Board) (c nf : grid_coords_t)
    (hgs : b.grid_size < u32_size) :
    (b.will_collide c = true ↔
      b.grid_size ≤ c.x ∨ b.grid_size ≤ c.y ∨ c ∈ b.snake.body) ∧
      (b.snake.head.x = 0 → b.snake.direction = west → (b.update nf).1 = false) ∧
      (b.snake.head.y = 0 → b.snake.direction = north → (b.update nf).1 = false) := by
  have hdec : u32_dec 0 = u32_size - 1 := by decide
  refine ⟨will_collide_iff b c, ?_, ?_⟩
  · intro hx hdir
    have hcol : b.will_collide b.snake.get_next_head_location = true := by
      rw [will_collide_iff]
      refine Or.inl ?_
      have hnx : b.snake.get_next_head_location.x = u32_size - 1 := by
        simp [Snake.get_next_head_location, hdir, hx, hdec]
      rw [hnx]
      unfold u32_size at hgs ⊢
      omega
    rw [update_of_collide b nf hcol]
  · intro hy hdir
    have hcol : b.will_collide b.snake.get_next_head_location = true := by
      rw [will_collide_iff]
      refine Or.inr (Or.inl ?_)
      have hny : b.snake.get_next_head_location.y = u32_size - 1 := by
        simp [Snake.get_next_head_location, hdir, hy, hdec]
      rw [hny]
      unfold u32_size at hgs ⊢
      omega
    rw [update_of_collide b nf hcol]

/-- Witness for C6: the origin snake heading north is stopped by the
wrapped bounds check, and a far-out coordinate is reported as a wall
collision. -/
theorem will_collide_spec_witness :
    (c6_board.update ⟨1, 1⟩).1 = false ∧ c6_board.will_collide ⟨7, 0⟩ = true := by
  constructor
  · exact (will_collide_spec c6_board ⟨7, 0⟩ ⟨1, 1⟩ (by decide)).2.2 rfl rfl
  · exact (will_collide_spec c6_board ⟨7, 0⟩ ⟨1, 1⟩ (by decide)).1.mpr (Or.inl (by decide))

/-- Claim C7: on a successful `update`, eating (next head equals the
pre-call food) grows the body by exactly one with the new head at the old
food cell; otherwise the body slides: the oldest segment is dropped and
the new head is appended. -/
theorem update_growth_slide (b : Board) (nf : grid_coords_t)
    (hne : b.snake.body ≠ []) (hs : (b.update nf).1 = true) :
    (b.snake.get_next_head_location = b.food_loc →
      (b.update nf).2.snake.body.length = b.snake.body.length + 1 ∧
        (b.update nf).2.snake.head = b.food_loc) ∧
      (b.snake.get_next_head_location ≠ b.food_loc →
        (b.update nf).2.snake.body =
          b.snake.body.tail ++ [b.snake.get_next_head_location]) := by
  have hc : b.will_collide b.snake.get_next_head_location = false := by
    by_contra hcc
    have hct : b.will_collide b.snake.get_next_head_location = true := by
      simpa using hcc
    rw [update_of_collide b nf hct] at hs
    simp at hs
  constructor
  · intro he
    rw [update_of_eat b nf hc he]
    refine ⟨move_grow_length b.snake, ?_⟩
    simpa [Snake.move] using he
  · intro he
    rw [update_of_no_eat b nf hc he]
    exact move_slide b.snake hne

/-- Witness for C7: on a 3x3 board with the snake at `(1,1)` heading east
and food at `(2,1)`, one `update` grows the body to length 2 with the head
on the old food cell. -/
theorem update_growth_slide_witness :
    (c7_board.update ⟨0, 0⟩).2.snake.body.length = c7_board.snake.body.length + 1 ∧
      (c7_board.update ⟨0, 0⟩).2.snake.head = c7_board.food_loc :=
  (update_growth_slide c7_board ⟨0, 0⟩ (by decide) (by decide)).1 (by decide)

/-- Claim C8: from any board constructed with an in-bounds start position,
every reachable state keeps every snake body segment and the food strictly
inside the grid. -/
theorem reachable_bounds_invariant (gs : Nat) (p0 : grid_coords_t) (d : Direction)
    (f0 : grid_coords_t) (hp : in_bounds gs p0) (hok : construct_ok gs p0 d f0)
    (b : Board) (hr : Reachable (Board.construct gs p0 d f0) b) :
    (∀ c ∈ b.snake.body, c.x < b.grid_size ∧ c.y < b.grid_size) ∧
      b.food_loc.x < b.grid_size ∧ b.food_loc.y < b.grid_size := by
  have hr2 : Relation.ReflTransGen Step (Board.construct gs p0 d f0) b := hr
  clear hr
  have hinv : BoardInv b := by
    induction hr2 with
    | refl => exact construct_inv gs p0 d f0 hp hok
    | tail hsteps hstep ih => exact step_preserves_inv ih hstep
  exact ⟨fun c hc => hinv.2.1 c hc, hinv.2.2.1, hinv.2.2.2⟩

/-- Witness for C8: the default 20x20 board with the snake at `(9,9)` is a
valid construction, and its state satisfies the food bounds. -/
theorem reachable_bounds_invariant_witness :
    c8_board.food_loc.x < c8_board.grid_size ∧
      c8_board.food_loc.y < c8_board.grid_size :=
  (reachable_bounds_invariant 20 ⟨9, 9⟩ north ⟨0, 0⟩ (by decide) (by decide)
    c8_board Relation.ReflTransGen.refl).2

/-- Claim C9: `reset` always reports success, rebuilds a one-segment snake
whose head is the originally configured initial position, and places the
food at an in-bounds cell not on that snake. -/
theorem reset_spec (b : Board) (d : Direction) (nf : grid_coords_t)
    (h : spawn_ok { b with snake := Snake.construct b.init_snake_coords d } nf) :
    (b.reset d nf).1 = true ∧
      (b.reset d nf).2.snake.body = [b.init_snake_coords] ∧
      (b.reset d nf).2.snake.head = b.init_snake_coords ∧
      (b.reset d nf).2.food_loc.x < (b.reset d nf).2.grid_size ∧
      (b.reset d nf).2.food_loc.y < (b.reset d nf).2.grid_size ∧
      (b.reset d nf).2.food_loc ∉ (b.reset d nf).2.snake.body := by
  obtain ⟨hfx, hfy, hfm⟩ := (will_collide_eq_false _ nf).mp h
  exact ⟨rfl, rfl, rfl, hfx, hfy, hfm⟩

/-- Witness for C9: resetting the 5x5 board with a draw of `(0,0)` for the
food yields the one-segment snake at the stored initial cell `(4,2)`. -/
theorem reset_spec_witness :
    (c5_board.reset north ⟨0, 0⟩).1 = true ∧
      (c5_board.reset north ⟨0, 0⟩).2.snake.body = [c5_board.init_snake_coords] ∧
      (c5_board.reset north ⟨0, 0⟩).2.snake.head = c5_board.init_snake_coords ∧
      (c5_board.reset north ⟨0, 0⟩).2.food_loc.x < (c5_board.reset north ⟨0, 0⟩).2.grid_size ∧
      (c5_board.reset north ⟨0, 0⟩).2.food_loc.y < (c5_board.reset north ⟨0, 0⟩).2.grid_size ∧
      (c5_board.reset north ⟨0, 0⟩).2.food_loc ∉ (c5_board.reset north ⟨0, 0⟩).2.snake.body :=
  reset_spec c5_board north ⟨0, 0⟩ (by decide)

end game
